import Mathlib

/-!
Shallow embedding of the statistics subsystem of the PokestarBot repository
(`src/extensions/statistics/...` and the `src/extensions/statistics.py`
monolith), together with theorems settling the frozen claims about it.

Conventions of the embedding:
* Discord snowflake ids are `Nat`.
* A message's month bucket (`get_month_bucket_from_message`) is an opaque
  `Nat` key; the claims never inspect its internal structure beyond equality.
* `len(URL_REGEX.findall(message.content))` is abstracted as the per-message
  field `url_matches` (the regex engine itself is external to the claims).
* Python dicts keyed by ids are association lists preserving insertion order,
  as Python dicts do.
-/

namespace PokestarBot

/-- An embed attached to a message: `len(embed)` (its byte length) and whether
`embed.url` is set. -/
structure EmbedData where
  byte_length : Nat
  has_url : Bool
deriving DecidableEq

/-- A message event as consumed by `Statistics.on_message` and by
`StatisticsRecalculate.recalculate_channel`: author id and bot flag, raw text,
attachment count, embeds, and the month bucket of its timestamp.
`url_matches` stands for `len(StatisticsRecalculate.URL_REGEX.findall(content))`. -/
structure Msg where
  author_id : Nat
  author_bot : Bool
  content : String
  url_matches : Nat
  attachments : Nat
  embeds : List EmbedData
  month : Nat
deriving DecidableEq

/-- Counts the maximal runs of non-whitespace characters; the flag records
whether the previous character was inside such a run. -/
def count_words_aux : List Char → Bool → Nat
  | [], _ => 0
  | ch :: rest, inWord =>
    if ch.isWhitespace then count_words_aux rest false
    else (if inWord then 0 else 1) + count_words_aux rest true

/-- `len(message.content.split())`: Python's `str.split()` splits on runs of
whitespace and discards empty tokens, so the token count is the number of
maximal non-whitespace runs. -/
def word_count (s : String) : Nat := count_words_aux s.data false

/-- Per-message word contribution of the live path (`words` in `on_message`). -/
def msg_words (m : Msg) : Nat := word_count m.content

/-- Per-message character contribution of the live path: `len(message.content)`,
plus `sum(len(embed) for embed in message.embeds)` when the author is a bot. -/
def msg_characters (m : Msg) : Nat :=
  m.content.length + (if m.author_bot then (m.embeds.map (fun e => e.byte_length)).sum else 0)

/-- Per-message link contribution of the live path:
`len(URL_REGEX.findall(message.content))`, plus one per embed with a URL when
the author is a bot. -/
def msg_links (m : Msg) : Nat :=
  m.url_matches + (if m.author_bot then (m.embeds.filter (fun e => e.has_url)).length else 0)

/-- The mutable columns of a `Statistic` row (`src/models/statistic.py`),
restricted to the fields the claims are about. -/
structure StatisticRow where
  messages : Nat
  num_words : Nat
  num_characters : Nat
  num_attachments : Nat
  num_links : Nat
  is_bot : Bool
  is_private : Option Bool
deriving DecidableEq

/-- One `on_message` call for a fixed bucket key (author, channel/thread,
month): if no row exists, create it seeded from this message; otherwise add the
message's deltas to the existing counts (`Statistics.on_message`,
`statistics/__init__.py` lines 48-90). -/
def on_message_upsert (priv : Option Bool) (m : Msg) : Option StatisticRow → StatisticRow
  | none =>
    { messages := 1
      num_words := msg_words m
      num_characters := msg_characters m
      num_attachments := m.attachments
      num_links := msg_links m
      is_bot := m.author_bot
      is_private := priv }
  | some r =>
    { r with
      messages := r.messages + 1
      num_words := r.num_words + msg_words m
      num_characters := r.num_characters + msg_characters m
      num_attachments := r.num_attachments + m.attachments
      num_links := r.num_links + msg_links m }

/-- Delivering a sequence of live messages for one bucket key to `on_message`,
starting from no stored row. -/
def run_on_message (priv : Option Bool) (msgs : List Msg) : Option StatisticRow :=
  msgs.foldl (fun row m => some (on_message_upsert priv m row)) none

/-- In-memory per-author running tallies of the recalculation engine
(`StatisticsUnit` in `recalculate.py`). -/
structure StatisticsUnit where
  messages : Nat := 0
  words : Nat := 0
  characters : Nat := 0
  attachments : Nat := 0
  links : Nat := 0
deriving DecidableEq

/-- The per-message tally update of `recalculate_channel`
(`recalculate.py` lines 113-125).  Note line 118 of the source:
`unit.links = len(self.URL_REGEX.findall(message.content))` uses plain
assignment where every other counter uses `+=`. -/
def update_unit (u : StatisticsUnit) (m : Msg) : StatisticsUnit :=
  let u1 : StatisticsUnit :=
    { messages := u.messages + 1
      words := u.words + word_count m.content
      characters := u.characters + m.content.length
      attachments := u.attachments + m.attachments
      links := m.url_matches }
  if m.author_bot then
    { u1 with
      characters := u1.characters + (m.embeds.map (fun e => e.byte_length)).sum
      links := u1.links + (m.embeds.filter (fun e => e.has_url)).length }
  else u1

/-- `stat_count[message.author]` on a `defaultdict(StatisticsUnit)`: update the
author's unit in place, inserting a default-constructed unit first when the
author is new. -/
def upsert_unit : List (Nat × StatisticsUnit) → Nat → Msg → List (Nat × StatisticsUnit)
  | [], a, m => [(a, update_unit {} m)]
  | (k, u) :: rest, a, m =>
    if k = a then (k, update_unit u m) :: rest else (k, u) :: upsert_unit rest a m

/-- The in-memory map built by `recalculate_channel` over the messages of one
month (the map is cleared at each month boundary, so `msgs` here are the
messages of a single month bucket). -/
def recalc_tallies (msgs : List Msg) : List (Nat × StatisticsUnit) :=
  msgs.foldl (fun sc m => upsert_unit sc m.author_id m) []

/-- The unit flushed for one author from the in-memory map. -/
def lookup_unit (sc : List (Nat × StatisticsUnit)) (a : Nat) : StatisticsUnit :=
  ((sc.find? (fun p => p.1 == a)).map Prod.snd).getD {}

/-- One row of the grouped/aggregated values query feeding `aggregate_threads`
(`UserHandler.get_queryset` -- `.values("guild_id", "channel_id", "thread_id",
"author_id", "sum", "is_private")`).  `agg_count` is absent from the query
dicts; the default `0` models `item.get("agg_count", 0)`. -/
structure ValuesRow where
  guild_id : Option Nat
  channel_id : Nat
  thread_id : Option Nat
  author_id : Nat
  sum : Nat
  is_private : Option Bool
  agg_count : Nat := 0
deriving DecidableEq

/-- The grouping key of `aggregate_threads`: `copy = item.copy();
copy.pop("thread_id"); key = tuple(v for k, v in sorted(copy.items()))`.
After removing `thread_id`, the remaining keys in name order are
`author_id, channel_id, guild_id, is_private, sum` -- the per-row `sum` is part
of the key. -/
def group_key (r : ValuesRow) : Nat × Nat × Option Nat × Option Bool × Nat :=
  (r.author_id, r.channel_id, r.guild_id, r.is_private, r.sum)

/-- Key type of the `thread_stats` dict in `aggregate_threads`. -/
abbrev AggKey := Nat × Nat × Option Nat × Option Bool × Nat

/-- `thread_stats[key] = item` / `thread_stats[key]["sum"] += item["sum"];
thread_stats[key]["agg_count"] = thread_stats[key].get("agg_count", 0) + 1`.
Note the stored first item keeps its `thread_id`. -/
def insert_thread_stat : List (AggKey × ValuesRow) → AggKey → ValuesRow → List (AggKey × ValuesRow)
  | [], k, item => [(k, item)]
  | (k0, v) :: rest, k, item =>
    if k0 = k then
      (k0, { v with sum := v.sum + item.sum, agg_count := v.agg_count + 1 }) :: rest
    else
      (k0, v) :: insert_thread_stat rest k item

/-- Main loop of `aggregate_threads` (`view/shared.py` lines 233-253): rows
without a `thread_id` or failing the condition pass through; the rest are
inserted into `thread_stats` by `group_key`. -/
def aggregate_threads_loop (condition : ValuesRow → Bool) :
    List ValuesRow → List (AggKey × ValuesRow) → List ValuesRow → List ValuesRow
  | [], ts, nts => ts.map Prod.snd ++ nts
  | item :: rest, ts, nts =>
    if item.thread_id.isNone || !condition item then
      aggregate_threads_loop condition rest ts (nts ++ [item])
    else
      aggregate_threads_loop condition rest (insert_thread_stat ts (group_key item) item) nts

/-- `aggregate_threads(stats, condition)`: returns
`list(thread_stats.values()) + non_thread_stats`. -/
def aggregate_threads (stats : List ValuesRow) (condition : ValuesRow → Bool) : List ValuesRow :=
  aggregate_threads_loop condition stats [] []

/-- The default condition `lambda item: item["is_private"]` under Python
truthiness: `None` and `False` are falsy. -/
def private_condition (item : ValuesRow) : Bool := item.is_private == some true

/-- The America/New_York-local fields of an aware datetime, i.e. the result of
`dt.astimezone(NewYork)` viewed through its components. -/
structure NYDateTime where
  year : Nat
  month : Nat
  day : Nat
  hour : Nat
  minute : Nat
  second : Nat
  microsecond : Nat
deriving DecidableEq

/-- `.replace(tzinfo=NewYork, day=1, hour=0, minute=0, second=0,
microsecond=0)` applied to a New-York-local datetime (`recalculate.py` lines
85-87): the start of the calendar month containing it. -/
def month_floor (t : NYDateTime) : NYDateTime :=
  { t with day := 1, hour := 0, minute := 0, second := 0, microsecond := 0 }

/-- A stored `Statistic` row as seen by the since_last lookup: its `month`
column (nullable as an SQL cell, but `DATE NOT NULL` by the schema, so always
set in a stored row) and its `last_updated` timestamp, already converted to
the New York representation.  The rows of a store are those matching the
lookup's channel/thread/guild filters. -/
structure StoredStat where
  month : Option Nat
  last_updated : NYDateTime
deriving DecidableEq

/-- Component list of a datetime, most significant first. -/
def NYDateTime.toList (t : NYDateTime) : List Nat :=
  [t.year, t.month, t.day, t.hour, t.minute, t.second, t.microsecond]

/-- Lexicographic order on component lists. -/
def lex_le : List Nat → List Nat → Bool
  | [], _ => true
  | _ :: _, [] => false
  | a :: as, b :: bs => if a < b then true else if b < a then false else lex_le as bs

/-- `a` is no later than `b`. -/
def NYDateTime.le (a b : NYDateTime) : Bool := lex_le a.toList b.toList

/-- `.order_by("-last_updated").first()`: a row with the greatest
`last_updated` among the given rows, or `none` when there are none. -/
def newest : List StoredStat → Option StoredStat
  | [] => none
  | r :: rest =>
    match newest rest with
    | none => some r
    | some r' => if NYDateTime.le r'.last_updated r.last_updated then some r else some r'

/-- The since_last lookup
`Statistic.filter(**kwargs).order_by("-last_updated").first()`
(`recalculate.py` line 83): at that point `kwargs` still carries
`month = None`, set at line 73 and only overwritten later inside the history
loop, and Tortoise resolves a `field=None` filter kwarg to `field IS NULL` --
so besides the channel/thread/guild filters (modelled by `rows` being exactly
that channel's rows) the query keeps only rows whose `month` column is NULL. -/
def lookup_last_stat (rows : List StoredStat) : Option StoredStat :=
  newest (rows.filter (fun r => r.month == none))

/-- The scan lower bound of `recalculate_channel` (`recalculate.py` lines
81-87): `after = None`; when `task.since_last`, the lookup above runs and, if
it finds a row, `after` becomes the month floor of that row's `last_updated`
in the reference timezone.  A `none` result means
`channel.history(after=None)`, i.e. scanning from the beginning of history. -/
def compute_after (since_last : Bool) (rows : List StoredStat) : Option NYDateTime :=
  if since_last then
    match lookup_last_stat rows with
    | some ls => some (month_floor ls.last_updated)
    | none => none
  else none

/-- The externally observable operations of `recalculate_channel`, in program
order.  `readMessage` is one iteration of the history stream (tallying one
message); `deleteRows`/`insertRows` are the month-flush
`Statistic.filter(**kwargs).delete()` / `Statistic.bulk_create(...)` pair. -/
inductive RecalcEvent where
  | queryLastStat
  | computePrivacy
  | acquireLock
  | readMessage
  | deleteRows
  | insertRows
  | releaseLock
deriving DecidableEq, BEq

/-- Whether an event writes to the statistics store. -/
def RecalcEvent.isWrite : RecalcEvent → Bool
  | .deleteRows => true
  | .insertRows => true
  | _ => false

/-- Events of the history loop of `recalculate_channel`: each message is
tallied; when its month bucket differs from the month being accumulated, the
accumulated month is flushed (delete + bulk insert) first. -/
def scan_events (cur : Option Nat) : List Msg → List RecalcEvent
  | [] => []
  | m :: rest =>
    match cur with
    | none => RecalcEvent.readMessage :: scan_events (some m.month) rest
    | some mo =>
      if m.month = mo then
        RecalcEvent.readMessage :: scan_events (some mo) rest
      else
        RecalcEvent.deleteRows :: RecalcEvent.insertRows ::
          RecalcEvent.readMessage :: scan_events (some m.month) rest

/-- The operation trace of `recalculate_channel(task)` (`recalculate.py` lines
69-145): the `since_last` lookup (lines 82-87) and the thread-privacy
evaluation (line 88) happen first, then the per-channel lock is entered
(line 89), then the history is streamed and flushed, with a final flush when
the in-memory map is non-empty (equivalently, when the scanned history is
non-empty), and the lock is released on exit. -/
def recalculate_channel_trace (since_last : Bool) (history : List Msg) : List RecalcEvent :=
  (if since_last then [RecalcEvent.queryLastStat] else []) ++
  [RecalcEvent.computePrivacy, RecalcEvent.acquireLock] ++
  scan_events none history ++
  (if history.isEmpty then [] else [RecalcEvent.deleteRows, RecalcEvent.insertRows]) ++
  [RecalcEvent.releaseLock]

/-- Channel shapes of the chat platform relevant to the statistics code. -/
inductive ChannelKind where
  | text
  | voice
  | forum
  | stage
  | dm
deriving DecidableEq, BEq

/-- A non-thread channel: its id, kind, and whether the guild's default
(everyone) role has the `view_channel` permission. -/
structure ChannelData where
  id : Nat
  kind : ChannelKind
  everyone_can_view : Bool
deriving DecidableEq

/-- A thread: its id, parent channel, and `thread.is_private()`. -/
structure ThreadData where
  id : Nat
  parent : ChannelData
  private_flag : Bool
deriving DecidableEq

/-- A channel-or-thread, as passed around the statistics code. -/
inductive AnyChannel where
  | thread (t : ThreadData)
  | channel (c : ChannelData)
deriving DecidableEq

/-- `is_private` of `view/shared.py` specialized to non-thread channels: a DM
channel is always private; otherwise a channel is private when the everyone
role lacks `view_channel`. -/
def channel_is_private (c : ChannelData) : Bool :=
  if c.kind == ChannelKind.dm then true else !c.everyone_can_view

/-- `is_private` of `view/shared.py` (lines 161-171): for a thread,
`channel.is_private() or is_private(channel.parent)`. -/
def is_private : AnyChannel → Bool
  | .channel c => channel_is_private c
  | .thread t => t.private_flag || channel_is_private t.parent

/-- `is_private_thread` of `statistics/shared.py` (lines 32-40): the thread's
own privacy flag for threads, `None` otherwise. -/
def is_private_thread : AnyChannel → Option Bool
  | .thread t => some t.private_flag
  | .channel _ => none

/-- The `is_private` value stored by the live path (`on_message`): for a thread
channel, `is_private=is_private(message.channel)`; otherwise `is_private=None`. -/
def live_is_private : AnyChannel → Option Bool
  | .thread t => some (is_private (.thread t))
  | .channel _ => none

/-- The `is_private` value stored by the recalculation engine
(`recalculate_channel` line 88): `is_private = is_private_thread(channel)`. -/
def recalc_is_private (c : AnyChannel) : Option Bool := is_private_thread c

/-- The privacy-display modes of the query surface
(`statistics.py` lines 54-60).  The source member `show` is spelled `«show»`
here because `show` is a Lean keyword. -/
inductive PrivateMode where
  | exclude
  | hide
  | hide_name
  | «show»
  | ephemeral
  | ephemeral_only_if_private
deriving DecidableEq, BEq

/-- `StatisticsView.is_ephemeral` (`statistics.py` lines 277-292): ephemeral
when the mode is `ephemeral`, or when the mode is `ephemeral_only_if_private`
and `has_at_least_one_private_channel` holds.  (The `LimitedPrivateMode`
branch of the source is character-identical modulo the enum type.) -/
def is_ephemeral (mode : PrivateMode) (has_at_least_one_private_channel : Bool) : Bool :=
  mode == PrivateMode.ephemeral ||
    (has_at_least_one_private_channel && mode == PrivateMode.ephemeral_only_if_private)

/-- A queried aggregate row as seen by the delivery code: its sum, its stored
`is_private` column, and its target channel (for the privacy fallback). -/
structure QueryStat where
  sum : Nat
  is_private : Option Bool
  target_channel : AnyChannel
deriving DecidableEq

/-- `is_private_stat` (`view/shared.py` lines 174-176): the stored flag when
set, else the channel-permission fallback. -/
def is_private_stat (stat : QueryStat) : Bool :=
  match stat.is_private with
  | some b => b
  | none => is_private stat.target_channel

/-- The flag computed before delivery (`view/base.py` line 101,
`statistics.py` line 948):
`next((is_private_stat(stat) for stat in stats), None) is not None` --
the first element of the generator (a bool) compared against `None`. -/
def has_at_least_one_private_channel (stats : List QueryStat) : Bool :=
  ((stats.map is_private_stat).head?).isSome

/-- The `ephemeral=` argument of the final `followup.send` in the query
surfaces: `is_ephemeral(private_mode, has_at_least_one_private_channel)`. -/
def response_is_ephemeral (mode : PrivateMode) (stats : List QueryStat) : Bool :=
  is_ephemeral mode (has_at_least_one_private_channel stats)

/-- A recalculation work unit (`RecalculateTask` in `recalculate.py`):
target channel/thread id plus the `since_last` flag. -/
structure RecalculateTask where
  channel : Nat
  since_last : Bool
deriving DecidableEq

/-- The data of a channel consumed by `queue_channel_and_threads`: bot-member
permissions, active threads, and the archived-thread listings its various
`archived_threads(...)` calls would return. -/
structure ChannelInfo where
  id : Nat
  kind : ChannelKind
  view_channel : Bool
  read_message_history : Bool
  manage_threads : Bool
  threads : List Nat
  archived_public : List Nat
  archived_private_all : List Nat
  archived_private_joined : List Nat
deriving DecidableEq

/-- `queue_channel_and_threads` (`recalculate.py` lines 147-179) as the list of
tasks it enqueues, in order: permission gate; forum channels force
`include_threads = True` and skip the channel-task branch entirely; voice
channels force `include_threads = False` and return early under
`only_threads`; text channels additionally enumerate archived public threads
and archived private threads (all of them when the bot may manage threads,
else only joined ones); forums enumerate `archived_threads(limit=None)`. -/
def queue_channel_and_threads (c : ChannelInfo)
    (include_threads only_threads since_last : Bool) : List RecalculateTask :=
  if !(c.view_channel && c.read_message_history) then []
  else
    let inc := if c.kind = ChannelKind.forum then true
      else if c.kind = ChannelKind.voice then false
      else include_threads
    if c.kind = ChannelKind.voice ∧ only_threads = true then []
    else
      let base : List RecalculateTask :=
        if c.kind ≠ ChannelKind.forum ∧ only_threads = false then
          [{ channel := c.id, since_last := since_last }]
        else []
      let threadTasks : List RecalculateTask :=
        if inc = true ∧ (c.kind = ChannelKind.text ∨ c.kind = ChannelKind.forum) then
          c.threads.map (fun tid => { channel := tid, since_last := since_last }) ++
          (if c.kind = ChannelKind.text then
            c.archived_public.map (fun tid => { channel := tid, since_last := since_last }) ++
            ((if c.manage_threads then c.archived_private_all else c.archived_private_joined).map
              (fun tid => { channel := tid, since_last := since_last }))
          else
            c.archived_public.map (fun tid => { channel := tid, since_last := since_last }))
        else []
      base ++ threadTasks

/-- The log entries a recalculation worker produces: the start notice, the
finish notice with the processed-message count, or the `print_exception` of a
caught failure. -/
inductive WorkerLog where
  | started (channel : Nat)
  | finished (channel : Nat) (count : Nat)
  | exceptionLogged (e : String)
deriving DecidableEq

/-- Whether a log entry is a start notice (one per dequeued task). -/
def WorkerLog.isStarted : WorkerLog → Bool
  | .started _ => true
  | _ => false

/-- The worker loop (`recalculate.py` lines 247-257) run over a queue of
tasks.  `runRecalc` is the recalculation of one task, which either returns
the processed-message count or raises.  The whole loop body is wrapped in
`try ... except Exception as e: print_exception(e)`: a failure is logged and
the loop moves to the next task; the failed task is not re-enqueued. -/
def run_worker (runRecalc : RecalculateTask → Except String Nat) :
    List RecalculateTask → List WorkerLog
  | [] => []
  | t :: rest =>
    match runRecalc t with
    | .ok count =>
      WorkerLog.started t.channel :: WorkerLog.finished t.channel count ::
        run_worker runRecalc rest
    | .error e =>
      WorkerLog.started t.channel :: WorkerLog.exceptionLogged e ::
        run_worker runRecalc rest

/-- The coalescing loop of `log_worker` (`recalculate.py` lines 259-270) after
the first message has been dequeued: while `len(msg) < 1700`, absorb the next
queued message newline-joined; the pending list holds the messages that would
arrive before the idle timeout, so an exhausted list is the `TimeoutError`
break.  Returns the outgoing notification and the messages left unabsorbed. -/
def log_worker_coalesce (msg : String) : List String → String × List String
  | [] => (msg, [])
  | m :: rest =>
    if msg.length < 1700 then log_worker_coalesce (msg ++ "\n" ++ m) rest
    else (msg, m :: rest)

/-- Concrete message: the spec's scenario text "hello world" from a non-bot
author. -/
def helloMsg : Msg :=
  { author_id := 42, author_bot := false, content := "hello world",
    url_matches := 0, attachments := 0, embeds := [], month := 202403 }

/-- Concrete message with one URL-pattern match, from author 7. -/
def linkMsgA : Msg :=
  { author_id := 7, author_bot := false, content := "x https://ab",
    url_matches := 1, attachments := 0, embeds := [], month := 202403 }

/-- A second concrete message with one URL-pattern match, same author/month. -/
def linkMsgB : Msg :=
  { author_id := 7, author_bot := false, content := "y https://cd",
    url_matches := 1, attachments := 0, embeds := [], month := 202403 }

/-- A private thread row under the fixed (guild 1, channel 100, author 42)
grouping, with the given thread id and sum. -/
def privRow (tid : Nat) (s : Nat) : ValuesRow :=
  { guild_id := some 1, channel_id := 100, thread_id := some tid,
    author_id := 42, sum := s, is_private := some true }

/-- A concrete `last_updated` instant: 2024-06-15 10:30:05.000123 New York. -/
def exLastUpdated : NYDateTime :=
  { year := 2024, month := 6, day := 15, hour := 10, minute := 30,
    second := 5, microsecond := 123 }

/-- A concrete stored row for the channel: month bucket 2024-06 (the column is
NOT NULL, so it is set) and `last_updated` as above. -/
def exStoredRow : StoredStat :=
  { month := some 202406, last_updated := exLastUpdated }

/-- A one-message history for trace examples. -/
def traceMsg : Msg :=
  { author_id := 1, author_bot := false, content := "hi",
    url_matches := 0, attachments := 0, embeds := [], month := 202401 }

/-- A public text channel (everyone can view). -/
def publicTextChannel : ChannelData :=
  { id := 500, kind := ChannelKind.text, everyone_can_view := true }

/-- A non-private query row targeting a public channel. -/
def publicStat : QueryStat :=
  { sum := 4, is_private := some false,
    target_channel := AnyChannel.channel publicTextChannel }

/-- A text channel hidden from the everyone role. -/
def hiddenParent : ChannelData :=
  { id := 600, kind := ChannelKind.text, everyone_can_view := false }

/-- A thread whose own flag is public but whose parent channel is hidden. -/
def publicThreadInHidden : ThreadData :=
  { id := 601, parent := hiddenParent, private_flag := false }

/-- A public text channel serving as a thread parent. -/
def openParent : ChannelData :=
  { id := 700, kind := ChannelKind.text, everyone_can_view := true }

/-- A private thread under a public parent channel. -/
def someThread : ThreadData :=
  { id := 701, parent := openParent, private_flag := true }

/-- A forum channel with two active and one archived thread. -/
def forumChannelEx : ChannelInfo :=
  { id := 10, kind := ChannelKind.forum, view_channel := true,
    read_message_history := true, manage_threads := false,
    threads := [11, 12], archived_public := [13],
    archived_private_all := [], archived_private_joined := [] }

/-- A voice channel (threads listed to show they are ignored). -/
def voiceChannelEx : ChannelInfo :=
  { id := 20, kind := ChannelKind.voice, view_channel := true,
    read_message_history := true, manage_threads := false,
    threads := [21], archived_public := [22],
    archived_private_all := [], archived_private_joined := [] }

/-- A recalculation runner that fails on channel 1 and succeeds elsewhere. -/
def failingRecalc : RecalculateTask → Except String Nat :=
  fun t => if t.channel == 1 then Except.error "boom" else Except.ok 5

/-- Task targeting channel 1. -/
def taskEx1 : RecalculateTask := { channel := 1, since_last := false }

/-- Task targeting channel 2. -/
def taskEx2 : RecalculateTask := { channel := 2, since_last := false }

/-- A first log message of 1699 units. -/
def cexFirstMsg : String := String.mk (List.replicate 1699 'a')

/-- A queued log message of 1000 units. -/
def cexSecondMsg : String := String.mk (List.replicate 1000 'b')

/-- A first log message of 1700 units (already at the ceiling). -/
def longMsgEx : String := String.mk (List.replicate 1700 'c')

/-- C1: evaluation of the recalculation tally at a failing input.  Two
messages from the same non-bot author in one month, each contributing one
link: the flushed `links` tally is 1 (the last message's contribution) while
the sum of the per-message link contributions is 2, because line 118 of
`recalculate.py` assigns (`unit.links = ...`) instead of accumulating
(`+=`) as every other counter does.  The `messages` and `words` counters of
the same loop do accumulate (2 and 4). -/
theorem recalc_links_not_accumulated :
    (lookup_unit (recalc_tallies [linkMsgA, linkMsgB]) 7).links = 1 ∧
    msg_links linkMsgA + msg_links linkMsgB = 2 ∧
    (lookup_unit (recalc_tallies [linkMsgA, linkMsgB]) 7).messages = 2 ∧
    (lookup_unit (recalc_tallies [linkMsgA, linkMsgB]) 7).words = 4 := by
  decide

/-- C2: evaluation of `aggregate_threads` at the claim's input.  Three private
thread rows under the same channel/author grouping with sums 3, 5 and 2 pass
through completely unmerged -- the result is the same three rows, with sums
`[3, 5, 2]` and no aggregated-count -- because the grouping key tuple built in
`aggregate_threads` retains the per-row `sum` value, so rows with different
sums never share a key.  The claim's expected output (one synthetic row with
sum 10 and aggregated-count 2) is not produced. -/
theorem aggregate_threads_sum_in_key :
    aggregate_threads [privRow 11 3, privRow 12 5, privRow 13 2] private_condition
      = [privRow 11 3, privRow 12 5, privRow 13 2] ∧
    (aggregate_threads [privRow 11 3, privRow 12 5, privRow 13 2] private_condition).map
        (fun r => r.sum) = [3, 5, 2] ∧
    (aggregate_threads [privRow 11 3, privRow 12 5, privRow 13 2] private_condition).map
        (fun r => r.agg_count) = [0, 0, 0] ∧
    ¬ (aggregate_threads [privRow 11 3, privRow 12 5, privRow 13 2]
        private_condition).length = 1 := by
  decide

/-- C6: evaluation of the ephemeral-delivery decision at a failing input.  A
result set consisting of one single non-private row (`is_private_stat` is
false) still sets `has_at_least_one_private_channel`, because the source
computes it as `next((is_private_stat(stat) for stat in stats), None) is not
None`, which is true for any non-empty result; under
`ephemeral_only_if_private` the response is therefore delivered ephemerally,
contradicting the claim.  (On an empty result the flag is false.) -/
theorem ephemeral_flag_nonempty_bug :
    is_private_stat publicStat = false ∧
    has_at_least_one_private_channel [publicStat] = true ∧
    response_is_ephemeral PrivateMode.ephemeral_only_if_private [publicStat] = true ∧
    has_at_least_one_private_channel [] = false := by
  decide

/-- Under the schema's NOT NULL `month` column no stored row satisfies the
`month IS NULL` predicate that the since_last lookup still carries, so the
lookup always returns `none` and the computed lower bound is always `none`:
every since_last recalculation scans from the beginning of history. -/
theorem compute_after_always_none (since_last : Bool) (rows : List StoredStat)
    (hnn : ∀ r ∈ rows, r.month ≠ none) :
    compute_after since_last rows = none := by
  have hfilter : rows.filter (fun r => r.month == none) = [] := by
    induction rows with
    | nil => rfl
    | cons r rest ih =>
      have hr : (r.month == none) = false := by
        cases hm : r.month with
        | none => exact absurd hm (hnn r (List.mem_cons_self _ _))
        | some v => rfl
      simp only [List.filter_cons, hr, Bool.false_eq_true, if_false]
      exact ih (fun x hx => hnn x (List.mem_cons_of_mem _ hx))
  cases since_last <;> simp [compute_after, lookup_last_stat, hfilter, newest]

/-- C4: evaluation of the lower-bound computation at the failing input.  A
stored row for the channel exists (month bucket 2024-06 -- the `month` column
is NOT NULL -- last updated 2024-06-15 10:30:05 New York), yet the since_last
lookup finds nothing, because its filter still carries `month = None`
(`month IS NULL`) from line 73 of `recalculate.py`; the computed lower bound
is therefore `none` -- the scan starts from the beginning of history -- and
not the start of the month containing the row's `last_updated`, as the claim
requires. -/
theorem since_last_lookup_finds_nothing :
    exStoredRow.month = some 202406 ∧
    lookup_last_stat [exStoredRow] = none ∧
    compute_after true [exStoredRow] = none ∧
    ¬ compute_after true [exStoredRow]
        = some (month_floor exStoredRow.last_updated) := by
  decide

/-- C7 counterexample: a thread whose own privacy flag is false inside a
parent channel hidden from the everyone role.  The live path stores
`is_private = True` (it evaluates `is_private(thread)`, which ORs in the
parent channel's privacy) while the recalculation engine stores
`is_private = False` (it evaluates `is_private_thread`, the thread's own flag
only) -- the two paths do not assign the same value. -/
theorem thread_privacy_paths_diverge_cex :
    live_is_private (AnyChannel.thread publicThreadInHidden) = some true ∧
    recalc_is_private (AnyChannel.thread publicThreadInHidden) = some false ∧
    live_is_private (AnyChannel.thread publicThreadInHidden)
      ≠ recalc_is_private (AnyChannel.thread publicThreadInHidden) := by
  decide

/-- C7 amended: for non-thread channels both paths leave `is_private` unset.
For a thread, the recalculation engine stores the thread's own privacy flag,
while the live path stores that flag OR-ed with the parent channel's privacy;
the two paths agree whenever the parent channel is not private. -/
theorem thread_privacy_paths_agree (c : AnyChannel) :
    ((∃ ch, c = AnyChannel.channel ch) →
      live_is_private c = none ∧ recalc_is_private c = none) ∧
    (∀ t, c = AnyChannel.thread t →
      recalc_is_private c = some t.private_flag ∧
      (channel_is_private t.parent = false →
        live_is_private c = recalc_is_private c)) := by
  constructor
  · intro h
    obtain ⟨ch, hch⟩ := h
    subst hch
    exact ⟨rfl, rfl⟩
  · intro t ht
    subst ht
    refine ⟨rfl, fun hpar => ?_⟩
    simp [live_is_private, recalc_is_private, is_private_thread, is_private, hpar]

/-- C7 amended witness: for the concrete private thread under a public parent,
the recalculation engine stores the thread's flag and the two paths agree. -/
theorem thread_privacy_paths_agree_witness :
    recalc_is_private (AnyChannel.thread someThread) = some someThread.private_flag ∧
    live_is_private (AnyChannel.thread someThread)
      = recalc_is_private (AnyChannel.thread someThread) :=
  ⟨((thread_privacy_paths_agree (AnyChannel.thread someThread)).2 someThread rfl).1,
    ((thread_privacy_paths_agree (AnyChannel.thread someThread)).2 someThread rfl).2
      (by decide)⟩

/-- Accumulation of `on_message_upsert` over a message list starting from an
already existing row: each delivered message adds its per-message deltas. -/
theorem run_on_message_from_row (priv : Option Bool) (msgs : List Msg) (r : StatisticRow) :
    ∃ r', msgs.foldl (fun row m => some (on_message_upsert priv m row)) (some r) = some r' ∧
      r'.messages = r.messages + msgs.length ∧
      r'.num_words = r.num_words + (msgs.map msg_words).sum ∧
      r'.num_characters = r.num_characters + (msgs.map msg_characters).sum ∧
      r'.num_attachments = r.num_attachments + (msgs.map (fun m => m.attachments)).sum ∧
      r'.num_links = r.num_links + (msgs.map msg_links).sum := by
  induction msgs generalizing r with
  | nil => exact ⟨r, rfl, by simp, by simp, by simp, by simp, by simp⟩
  | cons m rest ih =>
    obtain ⟨r', h1, h2, h3, h4, h5, h6⟩ := ih (on_message_upsert priv m (some r))
    refine ⟨r', h1, ?_, ?_, ?_, ?_, ?_⟩ <;>
      simp [on_message_upsert] at h2 h3 h4 h5 h6 ⊢ <;> omega

/-- C3: for any non-empty sequence of live messages delivered to `on_message`
for one (author, channel/thread, month) bucket, the stored row's
`messages` count equals the number of messages, and its word, character,
attachment and link counts each equal the sum of the per-message
contributions (`msg_words`, `msg_characters`, `msg_links` embed the bot-embed
addendum, applied only when the author is a bot). -/
theorem live_ingest_accumulates (priv : Option Bool) (msgs : List Msg) (h : msgs ≠ []) :
    ∃ r, run_on_message priv msgs = some r ∧
      r.messages = msgs.length ∧
      r.num_words = (msgs.map msg_words).sum ∧
      r.num_characters = (msgs.map msg_characters).sum ∧
      r.num_attachments = (msgs.map (fun m => m.attachments)).sum ∧
      r.num_links = (msgs.map msg_links).sum := by
  match msgs, h with
  | m :: rest, _ =>
    obtain ⟨r', h1, h2, h3, h4, h5, h6⟩ :=
      run_on_message_from_row priv rest (on_message_upsert priv m none)
    refine ⟨r', h1, ?_, ?_, ?_, ?_, ?_⟩ <;>
      simp [on_message_upsert] at h2 h3 h4 h5 h6 ⊢ <;> omega

/-- C3 witness: the spec's scenario -- the single message "hello world" from a
non-bot author yields a row with 1 message, 2 words, 11 characters, no
attachments and no links. -/
theorem live_ingest_accumulates_witness :
    ([helloMsg] : List Msg) ≠ [] ∧
    (∃ r, run_on_message none [helloMsg] = some r ∧
      r.messages = [helloMsg].length ∧
      r.num_words = ([helloMsg].map msg_words).sum ∧
      r.num_characters = ([helloMsg].map msg_characters).sum ∧
      r.num_attachments = ([helloMsg].map (fun m => m.attachments)).sum ∧
      r.num_links = ([helloMsg].map msg_links).sum) ∧
    run_on_message none [helloMsg] = some
      { messages := 1, num_words := 2, num_characters := 11,
        num_attachments := 0, num_links := 0, is_bot := false, is_private := none } :=
  ⟨List.cons_ne_nil _ _,
    live_ingest_accumulates none [helloMsg] (List.cons_ne_nil _ _),
    by decide⟩

/-- C9: the worker loop catches a failing task: the failure is logged
(`exceptionLogged`), the worker continues with exactly the remaining tasks,
and the failed task is dropped -- the second conjunct shows each submitted
task produces exactly one start notice, in submission order, so no task is
ever re-enqueued or retried. -/
theorem worker_catches_and_continues (runRecalc : RecalculateTask → Except String Nat)
    (t : RecalculateTask) (rest : List RecalculateTask) (e : String)
    (herr : runRecalc t = Except.error e) :
    run_worker runRecalc (t :: rest)
      = WorkerLog.started t.channel :: WorkerLog.exceptionLogged e ::
          run_worker runRecalc rest ∧
    ∀ tasks : List RecalculateTask,
      (run_worker runRecalc tasks).filter WorkerLog.isStarted
        = tasks.map (fun x => WorkerLog.started x.channel) := by
  constructor
  · simp [run_worker, herr]
  · intro tasks
    induction tasks with
    | nil => rfl
    | cons t' rest' ih =>
      cases hex : runRecalc t' <;>
        simp [run_worker, hex, WorkerLog.isStarted, ih]

/-- C9 witness: under a runner that fails on channel 1 and succeeds elsewhere,
processing [task on channel 1, task on channel 2] logs the exception for the
first task and continues; both tasks are started exactly once. -/
theorem worker_catches_and_continues_witness :
    run_worker failingRecalc [taskEx1, taskEx2]
      = WorkerLog.started taskEx1.channel :: WorkerLog.exceptionLogged "boom" ::
          run_worker failingRecalc [taskEx2] ∧
    (run_worker failingRecalc [taskEx1, taskEx2]).filter WorkerLog.isStarted
      = [taskEx1, taskEx2].map (fun x => WorkerLog.started x.channel) :=
  ⟨(worker_catches_and_continues failingRecalc taskEx1 [taskEx2] "boom" rfl).1,
    (worker_catches_and_continues failingRecalc taskEx1 [taskEx2] "boom" rfl).2
      [taskEx1, taskEx2]⟩

/-- C5 counterexample: for a `since_last` task over a one-message history, the
lock acquisition is not the first step: the trace's first event is the
last-row lookup (`queryLastStat` at index 0), and the lock's index is not
smaller than the lookup's -- so the lookup is not performed while the lock is
held. -/
theorem recalc_lock_not_first_cex :
    (recalculate_channel_trace true [traceMsg]).indexOf RecalcEvent.queryLastStat = 0 ∧
    ¬ ((recalculate_channel_trace true [traceMsg]).indexOf RecalcEvent.acquireLock
        < (recalculate_channel_trace true [traceMsg]).indexOf RecalcEvent.queryLastStat) := by
  decide

/-- Unfolding of `scan_events` on a cons under an already-set month bucket. -/
theorem scan_events_cons_some (mo : Nat) (m : Msg) (rest : List Msg) :
    scan_events (some mo) (m :: rest) =
      if m.month = mo then RecalcEvent.readMessage :: scan_events (some mo) rest
      else RecalcEvent.deleteRows :: RecalcEvent.insertRows ::
        RecalcEvent.readMessage :: scan_events (some m.month) rest := rfl

/-- Events emitted by the history loop of `recalculate_channel` are only
message reads and month-flush writes. -/
theorem scan_events_mem (cur : Option Nat) (l : List Msg) :
    ∀ e ∈ scan_events cur l, e = RecalcEvent.readMessage ∨
      e = RecalcEvent.deleteRows ∨ e = RecalcEvent.insertRows := by
  induction l generalizing cur with
  | nil => intro e he; cases cur <;> simp [scan_events] at he
  | cons m rest ih =>
    intro e he
    cases cur with
    | none =>
      rw [show scan_events none (m :: rest)
          = RecalcEvent.readMessage :: scan_events (some m.month) rest from rfl] at he
      rcases List.mem_cons.1 he with rfl | he
      · exact Or.inl rfl
      · exact ih _ e he
    | some mo =>
      rw [scan_events_cons_some] at he
      by_cases hm : m.month = mo
      · rw [if_pos hm] at he
        rcases List.mem_cons.1 he with rfl | he
        · exact Or.inl rfl
        · exact ih _ e he
      · rw [if_neg hm] at he
        rcases List.mem_cons.1 he with rfl | he
        · exact Or.inr (Or.inl rfl)
        rcases List.mem_cons.1 he with rfl | he
        · exact Or.inr (Or.inr rfl)
        rcases List.mem_cons.1 he with rfl | he
        · exact Or.inl rfl
        · exact ih _ e he

/-- C5 amended: in every execution of `recalculate_channel`, the `since_last`
lookup of the most recently updated row and the privacy evaluation happen
strictly before the per-channel lock is acquired (not while it is held); the
lock is acquired at a unique point of the trace, and no statistics-store
write (month-flush delete or insert) precedes it -- the history scan and all
row writes happen under the lock. -/
theorem recalc_lock_before_writes (since_last : Bool) (history : List Msg) :
    ∃ pre body,
      recalculate_channel_trace since_last history
        = pre ++ RecalcEvent.acquireLock :: body ∧
      (∀ e ∈ pre, e.isWrite = false) ∧
      RecalcEvent.acquireLock ∉ pre ∧
      RecalcEvent.acquireLock ∉ body ∧
      (since_last = true → RecalcEvent.queryLastStat ∈ pre) ∧
      RecalcEvent.queryLastStat ∉ body := by
  refine ⟨(if since_last then [RecalcEvent.queryLastStat] else []) ++
      [RecalcEvent.computePrivacy],
    scan_events none history ++
      ((if history.isEmpty then [] else [RecalcEvent.deleteRows, RecalcEvent.insertRows]) ++
        [RecalcEvent.releaseLock]), ?_, ?_, ?_, ?_, ?_, ?_⟩
  · simp [recalculate_channel_trace, List.append_assoc]
  · intro e he
    have h2 : e = RecalcEvent.queryLastStat ∨ e = RecalcEvent.computePrivacy := by
      cases since_last <;> simp at he <;> tauto
    rcases h2 with rfl | rfl <;> rfl
  · intro h
    cases since_last <;> simp at h
  · intro h
    rcases List.mem_append.1 h with h1 | h1
    · rcases scan_events_mem none history _ h1 with h3 | h3 | h3 <;> simp at h3
    · rcases List.mem_append.1 h1 with h2 | h2
      · by_cases hh : history.isEmpty <;> simp [hh] at h2
      · simp at h2
  · intro hs
    subst hs
    simp
  · intro h
    rcases List.mem_append.1 h with h1 | h1
    · rcases scan_events_mem none history _ h1 with h3 | h3 | h3 <;> simp at h3
    · rcases List.mem_append.1 h1 with h2 | h2
      · by_cases hh : history.isEmpty <;> simp [hh] at h2
      · simp at h2

/-- C5 amended witness: the decomposition of the concrete trace of a
`since_last` task over a one-message history. -/
theorem recalc_lock_before_writes_witness :
    ∃ pre body,
      recalculate_channel_trace true [traceMsg]
        = pre ++ RecalcEvent.acquireLock :: body ∧
      (∀ e ∈ pre, e.isWrite = false) ∧
      RecalcEvent.acquireLock ∉ pre ∧
      RecalcEvent.acquireLock ∉ body ∧
      (true = true → RecalcEvent.queryLastStat ∈ pre) ∧
      RecalcEvent.queryLastStat ∉ body :=
  recalc_lock_before_writes true [traceMsg]

/-- C8: for any channel passing the permission gate: a forum-style channel has
exactly its threads (active then archived) enqueued -- regardless of the
requested `include_threads` and `only_threads` values -- and a task for the
forum channel itself is in the output only if the channel's own id occurs
among its thread ids; a voice-style channel enqueues nothing when
`only_threads` is requested and only its own channel task otherwise -- never
any thread task. -/
theorem fanout_forum_and_voice (c : ChannelInfo)
    (include_threads only_threads since_last : Bool)
    (hv : c.view_channel = true) (hr : c.read_message_history = true) :
    (c.kind = ChannelKind.forum →
      queue_channel_and_threads c include_threads only_threads since_last
        = (c.threads ++ c.archived_public).map
            (fun tid => { channel := tid, since_last := since_last }) ∧
      (({ channel := c.id, since_last := since_last } : RecalculateTask)
          ∈ queue_channel_and_threads c include_threads only_threads since_last →
        c.id ∈ c.threads ++ c.archived_public)) ∧
    (c.kind = ChannelKind.voice →
      queue_channel_and_threads c include_threads only_threads since_last
        = if only_threads then []
          else [{ channel := c.id, since_last := since_last }]) := by
  constructor
  · intro hk
    have hq : queue_channel_and_threads c include_threads only_threads since_last
        = (c.threads ++ c.archived_public).map
            (fun tid => { channel := tid, since_last := since_last }) := by
      simp [queue_channel_and_threads, hv, hr, hk]
    refine ⟨hq, ?_⟩
    intro hmem
    rw [hq] at hmem
    simpa using hmem
  · intro hk
    cases only_threads <;> simp [queue_channel_and_threads, hv, hr, hk]

/-- C8 witness: the concrete forum channel (threads 11, 12; archived 13)
enumerates exactly its threads even though `include_threads := false` was
requested, and the concrete voice channel with `only_threads := true`
enqueues nothing. -/
theorem fanout_forum_and_voice_witness :
    queue_channel_and_threads forumChannelEx false false false
      = (forumChannelEx.threads ++ forumChannelEx.archived_public).map
          (fun tid => { channel := tid, since_last := false }) ∧
    queue_channel_and_threads voiceChannelEx true true false = [] := by
  constructor
  · exact ((fanout_forum_and_voice forumChannelEx false false false rfl rfl).1 rfl).1
  · have h := (fanout_forum_and_voice voiceChannelEx true true false rfl rfl).2 rfl
    simpa using h

/-- C10 counterexample: a 1699-unit first message absorbs a 1000-unit queued
message (the loop guard `len(msg) < 1700` holds at 1699) and the combined
outgoing notification has 2700 units -- the combined notification built from
more than one message exceeds the 1700-unit ceiling. -/
theorem log_coalesce_exceeds_ceiling :
    ((log_worker_coalesce cexFirstMsg [cexSecondMsg]).1).length = 2700 ∧
    1700 < ((log_worker_coalesce cexFirstMsg [cexSecondMsg]).1).length := by
  have hlen : cexFirstMsg.length = 1699 := by
    show (List.replicate 1699 'a').length = 1699
    rw [List.length_replicate]
  have hsec : cexSecondMsg.length = 1000 := by
    show (List.replicate 1000 'b').length = 1000
    rw [List.length_replicate]
  have hnl : ("\n" : String).length = 1 := rfl
  have hstep : log_worker_coalesce cexFirstMsg [cexSecondMsg]
      = (cexFirstMsg ++ "\n" ++ cexSecondMsg, []) := by
    simp only [log_worker_coalesce]
    rw [hlen]
    norm_num
  have htot : (cexFirstMsg ++ "\n" ++ cexSecondMsg).length = 2700 := by
    simp [String.length_append, hlen, hsec, hnl]
  rw [hstep]
  constructor
  · show (cexFirstMsg ++ "\n" ++ cexSecondMsg).length = 2700
    exact htot
  · show 1700 < (cexFirstMsg ++ "\n" ++ cexSecondMsg).length
    rw [htot]
    norm_num

/-- C10 amended: the coalescing worker absorbs an additional queued message
only while the combined text so far is strictly below the 1700-unit ceiling
(once the text reaches 1700 nothing more is absorbed and the pending queue is
untouched); consequently the combined notification need not stay under the
ceiling, but it never exceeds the larger of the initial message's length and
1700 plus the longest queued message (the newline separator included). -/
theorem log_coalesce_bounded (msg : String) (pending : List String) (L : Nat)
    (hbound : ∀ m ∈ pending, m.length ≤ L) :
    ((log_worker_coalesce msg pending).1.length ≤ max msg.length (1700 + L)) ∧
    (1700 ≤ msg.length → log_worker_coalesce msg pending = (msg, pending)) := by
  induction pending generalizing msg with
  | nil =>
    exact ⟨le_max_left _ _, fun _ => rfl⟩
  | cons m rest ih =>
    constructor
    · by_cases hlt : msg.length < 1700
      · have hm : m.length ≤ L := hbound m (List.mem_cons_self _ _)
        have hrest : ∀ x ∈ rest, x.length ≤ L :=
          fun x hx => hbound x (List.mem_cons_of_mem _ hx)
        have hb := (ih (msg ++ "\n" ++ m) hrest).1
        have hnl : ("\n" : String).length = 1 := rfl
        have happ : (msg ++ "\n" ++ m).length = msg.length + 1 + m.length := by
          simp [String.length_append, hnl]
        have hmax : max (msg ++ "\n" ++ m).length (1700 + L) = 1700 + L :=
          max_eq_right (by omega)
        rw [hmax] at hb
        have hunf : log_worker_coalesce msg (m :: rest)
            = log_worker_coalesce (msg ++ "\n" ++ m) rest := by
          simp only [log_worker_coalesce]
          rw [if_pos hlt]
        rw [hunf]
        exact le_trans hb (le_max_right _ _)
      · have hunf : log_worker_coalesce msg (m :: rest) = (msg, m :: rest) := by
          simp only [log_worker_coalesce]
          rw [if_neg hlt]
        rw [hunf]
        exact le_max_left _ _
    · intro hge
      have hlt : ¬ msg.length < 1700 := by omega
      simp only [log_worker_coalesce]
      rw [if_neg hlt]

/-- C10 amended witness: a first message already at the 1700-unit ceiling
absorbs nothing -- the outgoing text is the initial message alone, the
pending queue is untouched, and the bound holds. -/
theorem log_coalesce_bounded_witness :
    (log_worker_coalesce longMsgEx [cexSecondMsg]).1.length
      ≤ max longMsgEx.length (1700 + 1000) ∧
    log_worker_coalesce longMsgEx [cexSecondMsg] = (longMsgEx, [cexSecondMsg]) := by
  have hb : ∀ m ∈ [cexSecondMsg], m.length ≤ 1000 := by
    intro m hm
    simp at hm
    subst hm
    show (List.replicate 1000 'b').length ≤ 1000
    rw [List.length_replicate]
  have hge : 1700 ≤ longMsgEx.length := by
    show 1700 ≤ (List.replicate 1700 'c').length
    rw [List.length_replicate]
  exact ⟨(log_coalesce_bounded longMsgEx [cexSecondMsg] 1000 hb).1,
    (log_coalesce_bounded longMsgEx [cexSecondMsg] 1000 hb).2 hge⟩

end PokestarBot
